import Mathlib

/-!
Verification of the dashborg-go-sdk connection and request-dispatch engine.

This file gives a shallow embedding, in Lean 4, of the parts of the SDK
source that the specification claims speak about:

* the legacy panel response buffer (pkg/dash/dash.go: PanelRequest and its
  append / flush / Done operations),
* the cloud client dispatch and RPC guard logic (pkg/dashcloud/dbclient.go),
* the blob helper BlobDataFromReadSeeker (pkg/dash/dashapp.go).

External effects are made explicit: the wall clock dashutil.Ts() becomes a
parameter `now : ℤ`; RPC traffic becomes a returned list of RPC names;
readers and server responses become explicit inputs.  The Go float64 field
for the account blob size limit is idealised as a rational.
-/

namespace Dashborg

/-! ## Response buffer: PanelRequest (pkg/dash/dash.go)

The Go struct PanelRequest holds the per-request action buffer.  The fields
Ctx, Lock, Data, Model and Err are dropped: Ctx and Lock carry no
buffer-visible state (the lock only serialises appendRR, which the
sequential model reflects), and Data/Model/Err are not read by the
operations under study except Data in PasswordAuth, which no claim covers.
AuthData ([]*authAtom in Go, read through mapstructure.Decode which is the
identity on this type) is modelled as the list of auth atoms. -/

/-- authAtom from pkg/dash/dash.go lines 143-151.  The Data field
(interface value) is dropped; no claim reads it. -/
structure AuthAtom where
  scope : String := ""
  type : String
  auto : Bool := false
  ts : ℤ := 0
  id : String := ""
  role : String
deriving DecidableEq, Repr

/-- RRAction mirrors dashproto.RRAction as used by pkg/dash/dash.go.  For
panelauth actions the source stores json.Marshal of an authAtom in
JsonData; the model keeps the atom structurally in `authAtomData` instead
of serialising it. -/
structure RRAction where
  ts : ℤ
  actionType : String
  selector : String := ""
  jsonData : String := ""
  eventType : String := ""
  html : String := ""
  authAtomData : Option AuthAtom := none
deriving DecidableEq, Repr

/-- PanelRequest from pkg/dash/dash.go lines 55-70 (buffer-relevant fields). -/
structure PanelRequest where
  panelName : String
  reqId : String
  requestType : String
  feClientId : String := ""
  path : String
  authData : List AuthAtom := []
  rrActions : List RRAction := []
  isDone : Bool := false
  authImpl : Bool := false
deriving DecidableEq, Repr

/-- appendRR (dash.go lines 84-88): append one action to the buffer. -/
def PanelRequest.appendRR (req : PanelRequest) (a : RRAction) : PanelRequest :=
  { req with rrActions := req.rrActions ++ [a] }

/-- SetData (dash.go lines 90-106).  The result of marshalJson(data) is an
explicit input `jsonData?` (none = marshal error).  Returns the new request
and an error message when one is produced. -/
def PanelRequest.setData (now : ℤ) (req : PanelRequest) (path : String)
    (jsonData? : Option String) : PanelRequest × Option String :=
  if req.isDone then
    (req, some ("Cannot call SetData(), path=" ++ path ++ ", PanelRequest is already done"))
  else
    match jsonData? with
    | none => (req, some ("Error marshaling json for SetData, path:" ++ path))
    | some j =>
      (req.appendRR { ts := now, actionType := "setdata", selector := path, jsonData := j }, none)

/-- SetHtml (dash.go lines 108-117).  Note: the source performs no IsDone
check here, unlike SetData / InvalidateData / sendEvent; the action is
appended unconditionally and nil is returned. -/
def PanelRequest.setHtml (now : ℤ) (req : PanelRequest) (html : String) :
    PanelRequest × Option String :=
  (req.appendRR { ts := now, actionType := "html", html := html }, none)

/-- InvalidateData (dash.go lines 268-279). -/
def PanelRequest.invalidateData (now : ℤ) (req : PanelRequest) (path : String) :
    PanelRequest × Option String :=
  if req.isDone then
    (req, some ("Cannot call InvalidateData(), path=" ++ path ++ ", PanelRequest is already done"))
  else
    (req.appendRR { ts := now, actionType := "invalidate", selector := path }, none)

/-- sendEvent (dash.go lines 281-298), with marshalJson(data) as input. -/
def PanelRequest.sendEvent (now : ℤ) (req : PanelRequest) (selector eventType : String)
    (jsonData? : Option String) : PanelRequest × Option String :=
  if req.isDone then
    (req, some ("Cannot call SendEvent(), selector=" ++ selector ++ ", PanelRequest is already done"))
  else
    match jsonData? with
    | none => (req, some ("Error marshaling json for SendEvent, selector:" ++ selector))
    | some j =>
      (req.appendRR
        { ts := now, actionType := "event", selector := selector,
          eventType := eventType, jsonData := j }, none)

/-- isRootReq (dash.go lines 139-141). -/
def PanelRequest.isRootReq (req : PanelRequest) : Bool :=
  req.requestType = "handler" && req.panelName ≠ "" && req.path = "/"

/-- getRawAuthData / isAuthenticated (dash.go lines 192-207).
mapstructure.Decode from []*authAtom to []*authAtom is the identity, so
isAuthenticated reduces to the auth atom list being non-empty. -/
def PanelRequest.isAuthenticated (req : PanelRequest) : Bool :=
  req.authData.length > 0

/-- appendPanelAuthRRAction (dash.go lines 166-180): builds an authAtom with
Auto=true and Ts = dashutil.Ts() + 24*60*60*1000 and appends a panelauth
action carrying its JSON; both dashutil.Ts() calls are modelled by `now`. -/
def PanelRequest.appendPanelAuthRRAction (now : ℤ) (req : PanelRequest)
    (authType role : String) : PanelRequest :=
  let atom : AuthAtom :=
    { type := authType, auto := true, ts := now + 24 * 60 * 60 * 1000, role := role }
  req.appendRR { ts := now, actionType := "panelauth", authAtomData := some atom }

/-- NoAuth (dash.go lines 212-217). -/
def PanelRequest.noAuth (now : ℤ) (req : PanelRequest) : PanelRequest :=
  let req := { req with authImpl := true }
  if !req.isAuthenticated then req.appendPanelAuthRRAction now "noauth" "user"
  else req

/-- Modelled from the spec: the legacy global client sendRequestResponse
(called by flush and Done in dash.go) is not under src/; per spec section
4.5 it sends the accumulated actions with the given responseDone flag,
clears the buffer atomically with the send, and on Done transitions the
buffer to Done.  Returns the new request and the actions that were sent. -/
def PanelRequest.sendRequestResponse (req : PanelRequest) (done : Bool) :
    PanelRequest × List RRAction :=
  ({ req with rrActions := [], isDone := req.isDone || done }, req.rrActions)

/-- flush (dash.go lines 300-305): error when already done, otherwise send
with responseDone=false. -/
def PanelRequest.flush (req : PanelRequest) : PanelRequest × Option String :=
  if req.isDone then
    (req, some "Cannot Flush(), PanelRequest is already done")
  else
    ((req.sendRequestResponse false).1, none)

/-- Done (dash.go lines 307-319): nil when already done; otherwise apply the
default NoAuth for root handler requests whose handler left AuthImpl unset,
then send the terminal response.  Returns the new request and the actions
sent by the terminal response (empty when already done: nothing is sent). -/
def PanelRequest.done (now : ℤ) (req : PanelRequest) :
    PanelRequest × List RRAction :=
  if req.isDone then (req, [])
  else
    let req1 := if !req.authImpl && req.isRootReq then req.noAuth now else req
    req1.sendRequestResponse true

/-- Number of panelauth actions in a list of response actions. -/
def countPanelAuth (l : List RRAction) : ℕ :=
  (l.filter (fun a => a.actionType = "panelauth")).length

/-! ## Request deadline (pkg/dashcloud/dbclient.go) -/

/-- Request deadline derivation from pkg/dashcloud/dbclient.go lines 487-490:
`timeoutMs := reqMsg.TimeoutMs; if timeoutMs == 0 || timeoutMs > 60000 { timeoutMs = 60000 }`. -/
def effTimeoutMs (t : ℤ) : ℤ :=
  if t = 0 ∨ t > 60000 then 60000 else t

/-! ## Cloud client (pkg/dashcloud/dbclient.go)

DashCloudClient is modelled by the fields the claims read: the exit error,
whether Conn and Config are non-nil, the atomically stored ConnId string,
the account info returned by ConnectClient, and the names present in the
AppMap.  Each RPC-bearing operation returns the list of RPC calls it hands
to the transport together with its error result; server responses and
reader outcomes are explicit inputs. -/

/-- Error codes of pkg/dasherr (closed set listed in the spec, section 7). -/
inductive ErrCode where
  | notConnected
  | rpc
  | badConnId
  | noHandler
  | limit
  | validate
  | jsonMarshal
  | jsonUnmarshal
  | timeout
  | eof
  | noFeStream
deriving DecidableEq, Repr

/-- A dasherr tagged error: code plus message. -/
structure DashErr where
  code : ErrCode
  msg : String
deriving DecidableEq, Repr

/-- NotConnectedErr (dbclient.go line 45). -/
def notConnectedErr : DashErr :=
  ⟨.notConnected, "DashborgCloudClient is not Connected"⟩

/-- The RPCs of the DashborgService transport (spec section 4.1). -/
inductive RpcName where
  | connectClient
  | requestStream
  | sendResponse
  | setBlob
  | writeApp
  | removeApp
  | openApp
  | reflectZone
  | callDataHandler
  | backendPush
  | startStream
deriving DecidableEq, Repr

/-- Account info fields read by the claims (dashproto.AccInfo).
BlobSizeLimitMB is float64 in Go, idealised as a rational. -/
structure AccInfo where
  accType : String := ""
  blobSizeLimitMB : ℚ := 0
deriving DecidableEq, Repr

/-- DashCloudClient state (dbclient.go lines 52-65), restricted to the
fields the claims read. -/
structure DashCloudClient where
  hasConfig : Bool := true
  hasConn : Bool := true
  connId : String := ""
  exitErr : Option DashErr := none
  accInfo : AccInfo := {}
  appNames : List String := []
deriving DecidableEq, Repr

/-- IsConnected (dbclient.go lines 723-741): nil receiver / nil Config, a
latched exit error, a nil Conn, or an empty ConnId all mean not connected. -/
def DashCloudClient.isConnected (pc : DashCloudClient) : Bool :=
  if !pc.hasConfig then false
  else if pc.exitErr.isSome then false
  else if !pc.hasConn then false
  else if pc.connId = "" then false
  else true

/-- RemoveApp (dbclient.go lines 352-367): guarded by IsConnected; when
connected, one RemoveApp RPC is issued and `resp` (the error derived from
the server response by handleStatusErrors) is returned. -/
def DashCloudClient.removeAppRpc (pc : DashCloudClient) (resp : Option DashErr) :
    List RpcName × Option DashErr :=
  if !pc.isConnected then ([], some notConnectedErr)
  else ([.removeApp], resp)

/-- BackendPush (dbclient.go lines 515-530): guarded by IsConnected. -/
def DashCloudClient.backendPush (pc : DashCloudClient) (resp : Option DashErr) :
    List RpcName × Option DashErr :=
  if !pc.isConnected then ([], some notConnectedErr)
  else ([.backendPush], resp)

/-- ReflectZone (dbclient.go lines 532-548): guarded by IsConnected. -/
def DashCloudClient.reflectZone (pc : DashCloudClient) (resp : Option DashErr) :
    List RpcName × Option DashErr :=
  if !pc.isConnected then ([], some notConnectedErr)
  else ([.reflectZone], resp)

/-- CallDataHandler (dbclient.go lines 550-577): guarded by IsConnected. -/
def DashCloudClient.callDataHandler (pc : DashCloudClient) (resp : Option DashErr) :
    List RpcName × Option DashErr :=
  if !pc.isConnected then ([], some notConnectedErr)
  else ([.callDataHandler], resp)

/-- OpenApp (dbclient.go lines 604-626): guarded by IsConnected. -/
def DashCloudClient.openApp (pc : DashCloudClient) (resp : Option DashErr) :
    List RpcName × Option DashErr :=
  if !pc.isConnected then ([], some notConnectedErr)
  else ([.openApp], resp)

/-- baseWriteApp (dbclient.go lines 628-655): guarded by IsConnected; the
AppConfig marshal result is the explicit input `jsonVal?`. -/
def DashCloudClient.baseWriteApp (pc : DashCloudClient) (jsonVal? : Option String)
    (resp : Option DashErr) : List RpcName × Option DashErr :=
  if !pc.isConnected then ([], some notConnectedErr)
  else
    match jsonVal? with
    | none => ([], some ⟨.jsonMarshal, "AppConfig"⟩)
    | some _ => ([.writeApp], resp)

/-- StartStreamProtoRpc (dbclient.go lines 796-810): guarded by IsConnected. -/
def DashCloudClient.startStreamProtoRpc (pc : DashCloudClient) (resp : Option DashErr) :
    List RpcName × Option DashErr :=
  if !pc.isConnected then ([], some notConnectedErr)
  else ([.startStream], resp)

/-- SendResponseProtoRpc (dbclient.go lines 813-823): guarded by IsConnected. -/
def DashCloudClient.sendResponseProtoRpc (pc : DashCloudClient) (resp : Option DashErr) :
    List RpcName × Option DashErr :=
  if !pc.isConnected then ([], some notConnectedErr)
  else ([.sendResponse], resp)

/-- SetBlobData (dbclient.go lines 667-706): IsConnected guard, marshal of
the BlobData record (`blobJson?`, none = marshal error), ReadAll of the
reader (`barrRes`, an error or the bytes, abstracted to the byte count
`barrLen` since only the length is examined), then the local account blob
size check `float64(len(barr)) > pc.AccInfo.BlobSizeLimitMB*1000000`
(float64 arithmetic idealised over ℚ); only past that check is the SetBlob
client stream opened and the one message sent. -/
def DashCloudClient.setBlobData (pc : DashCloudClient) (blobJson? : Option String)
    (barrRes : Except DashErr ℕ) (resp : Option DashErr) :
    List RpcName × Option DashErr :=
  if !pc.isConnected then ([], some notConnectedErr)
  else
    match blobJson? with
    | none => ([], some ⟨.jsonMarshal, "BlobData"⟩)
    | some _ =>
      match barrRes with
      | .error e => ([], some e)
      | .ok barrLen =>
        if (barrLen : ℚ) > pc.accInfo.blobSizeLimitMB * 1000000 then
          ([], some ⟨.limit, "Cannot upload BLOB"⟩)
        else ([.setBlob], resp)

/-- An inbound request frame (dashproto.RequestMessage), restricted to the
fields the dispatch path reads. -/
structure RequestMessage where
  reqId : String
  requestType : String
  panelName : String
  feClientId : String := ""
  path : String := ""
  timeoutMs : ℤ := 0
deriving DecidableEq, Repr

/-- An outbound response frame (dashproto.SendResponseMessage), restricted
to the fields sendNoAppResponse sets. -/
structure SendResponseMessage where
  ts : ℤ
  reqId : String
  requestType : String
  panelName : String
  feClientId : String
  responseDone : Bool
  err : String
deriving DecidableEq, Repr

/-- sendNoAppResponse (dbclient.go lines 437-451): builds the terminal
No App Found response and hands it to the SendResponse RPC.  Note: the
source has no IsConnected guard on this path; the RPC is attempted
regardless of the stored ConnId (which is attached as metadata, returned
here as the third component). -/
def DashCloudClient.sendNoAppResponse (pc : DashCloudClient) (now : ℤ)
    (reqMsg : RequestMessage) : List RpcName × SendResponseMessage × String :=
  ([.sendResponse],
   { ts := now, reqId := reqMsg.reqId, requestType := reqMsg.requestType,
     panelName := reqMsg.panelName, feClientId := reqMsg.feClientId,
     responseDone := true, err := "No App Found" },
   pc.connId)

/-- Outcome of one dispatched request frame. -/
inductive DispatchOutcome where
  | noApp (sent : List SendResponseMessage)
  | handlerDispatched (appName : String)
deriving DecidableEq, Repr

/-- The per-request goroutine body of runRequestStream (dbclient.go lines
485-503): derive the effective timeout, look the app name up in the AppMap
under the lock, send the single No App Found terminal response when the
app is absent and return without calling user code, otherwise hand the
request to the app client (user handler dispatch). -/
def DashCloudClient.dispatchFrame (pc : DashCloudClient) (now : ℤ)
    (reqMsg : RequestMessage) : ℤ × DispatchOutcome :=
  let timeoutMs := effTimeoutMs reqMsg.timeoutMs
  let appFound := pc.appNames.contains reqMsg.panelName
  if !appFound then
    (timeoutMs, .noApp [(pc.sendNoAppResponse now reqMsg).2.1])
  else
    (timeoutMs, .handlerDispatched reqMsg.panelName)

/-- setExitError (dbclient.go lines 708-714): record the error only when no
exit error is stored yet. -/
def DashCloudClient.setExitError (pc : DashCloudClient) (e : DashErr) : DashCloudClient :=
  if pc.exitErr = none then { pc with exitErr := some e } else pc

/-- GetExitError (dbclient.go lines 716-721). -/
def DashCloudClient.getExitError (pc : DashCloudClient) : Option DashErr :=
  pc.exitErr

/-- WaitForShutdown (dbclient.go lines 599-602): blocks on DoneCh, then
returns GetExitError; the blocking itself is outside the state model. -/
def DashCloudClient.waitForShutdown (pc : DashCloudClient) : Option DashErr :=
  pc.getExitError

/-! ## Blob helpers (pkg/dash/dashapp.go) -/

/-- BlobData (dashapp.go lines 76-84); the Metadata interface field is
dropped (BlobDataFromReadSeeker never sets it). -/
structure BlobData where
  blobKey : String := ""
  mimeType : String := ""
  size : ℤ := 0
  sha256 : String := ""
  updateTs : ℤ := 0
  removed : Bool := false
deriving DecidableEq, Repr

/-- Model of the io.ReadSeeker consumed by BlobDataFromReadSeeker: the
outcome of the first Seek(0,0), of the io.Copy into the sha256 hasher
(yielding the byte count and the base64 digest of the content), and of the
second Seek(0,0).  Errors are abstracted to message strings. -/
structure ReadSeekerModel where
  seek1Err : Option String := none
  copyErr : Option String := none
  contentLen : ℤ := 0
  contentHash : String := ""
  seek2Err : Option String := none
deriving DecidableEq, Repr

/-- BlobDataFromReadSeeker (dashapp.go lines 445-468), translated branch by
branch.  Its own doc comment promises: if no error is returned the reader
has been reset to the beginning.  Note the first-Seek failure branch at
line 448 is `return BlobData{}, nil`: the seek error is dropped and an
empty BlobData is returned with a nil error. -/
def blobDataFromReadSeeker (key mimeType : String) (r : ReadSeekerModel) :
    BlobData × Option String :=
  match r.seek1Err with
  | some _ => ({}, none)
  | none =>
    match r.copyErr with
    | some e => ({}, some e)
    | none =>
      match r.seek2Err with
      | some e => ({}, some e)
      | none =>
        ({ blobKey := key, mimeType := mimeType,
           sha256 := r.contentHash, size := r.contentLen }, none)

/-! ## Concrete instances used by the claim witnesses and counterexamples -/

/-- A PanelRequest that has already completed its terminal send. -/
def c1ReqDone : PanelRequest :=
  { panelName := "p1", reqId := "r1", requestType := "handler", path := "/", isDone := true }

/-- A fresh root handler request used by the C1 witness. -/
def c1ReqOpen : PanelRequest :=
  { panelName := "p1", reqId := "r2", requestType := "handler", path := "/" }

/-- A root handler request that arrived already carrying an auth atom
(server-supplied AuthData), with no handler auth call (AuthImpl unset). -/
def c2ReqAuthed : PanelRequest :=
  { panelName := "p1", reqId := "r1", requestType := "handler", path := "/",
    authData := [{ type := "dashborg", role := "user" }] }

/-- A root handler request with no auth atoms and AuthImpl unset. -/
def c2ReqClean : PanelRequest :=
  { panelName := "p1", reqId := "r3", requestType := "handler", path := "/" }

/-- A client whose stored connection identity is empty. -/
def c5EmptyConnClient : DashCloudClient := { connId := "" }

/-- A connected client with a 1 MB account blob limit and one registered app. -/
def c6ConnectedClient : DashCloudClient :=
  { connId := "conn-1", accInfo := { accType := "anon", blobSizeLimitMB := 1 },
    appNames := ["a"] }

/-- An inbound frame targeting an app name absent from the AppMap. -/
def c7NoAppReq : RequestMessage :=
  { reqId := "r9", requestType := "handler", panelName := "zzz", path := "/" }

/-- A reader whose first Seek(0,0) fails. -/
def c8SeekFailReader : ReadSeekerModel :=
  { seek1Err := some "seek error: device offline" }

end Dashborg

namespace Dashborg

/-! ## Helper lemmas -/

/-- An empty stored ConnId makes IsConnected return false. -/
theorem isConnected_false_of_connId_empty (pc : DashCloudClient)
    (h : pc.connId = "") : pc.isConnected = false := by
  simp [DashCloudClient.isConnected, h]

/-- Once an exit error is stored, further setExitError calls are no-ops. -/
theorem foldl_setExitError_of_some (pc : DashCloudClient) (x : DashErr)
    (hx : pc.exitErr = some x) (es : List DashErr) :
    es.foldl DashCloudClient.setExitError pc = pc := by
  induction es with
  | nil => rfl
  | cons e rest ih =>
    have hstep : pc.setExitError e = pc := by
      unfold DashCloudClient.setExitError
      rw [hx]
      simp
    rw [List.foldl_cons, hstep]
    exact ih

/-! ## Claim theorems -/

/-- C4: the dispatch deadline equals min(server timeout, 60000) ms with a zero
value mapped to 60000 ms; in particular 0 and any value above 60000 yield
exactly 60000. -/
theorem c4_deadline_min_60000 :
    (∀ t : ℤ, effTimeoutMs t = if t = 0 then 60000 else min t 60000) ∧
    effTimeoutMs 0 = 60000 ∧ effTimeoutMs 60001 = 60000 ∧ effTimeoutMs 500 = 500 := by
  refine ⟨fun t => ?_, by decide, by decide, by decide⟩
  unfold effTimeoutMs
  rcases Decidable.em (t = 0) with h0 | h0
  · simp [h0]
  · rcases Decidable.em (t > 60000) with hg | hg
    · simp [h0, hg, min_eq_right (le_of_lt (by omega : (60000 : ℤ) < t))]
    · simp [h0, hg, min_eq_left (by omega : t ≤ (60000 : ℤ))]

/-- C1 counterexample: SetHtml on a done PanelRequest returns nil and still
appends the html action, so not every append operation invoked while IsDone
errors out and leaves the action list unchanged. -/
theorem c1_sethtml_after_done_counterexample :
    c1ReqDone.isDone = true ∧
    (PanelRequest.setHtml 7 c1ReqDone "<h1>x</h1>").2 = none ∧
    (PanelRequest.setHtml 7 c1ReqDone "<h1>x</h1>").1.rrActions ≠ c1ReqDone.rrActions := by
  refine ⟨rfl, rfl, ?_⟩
  decide

/-- C1 (amended): while IsDone, SetData, InvalidateData, sendEvent and
flush each return an error and leave the request unchanged; SetHtml is the
exception: it performs no IsDone check, appends its action and returns nil. -/
theorem c1_done_guards_amended (now : ℤ) (req : PanelRequest)
    (p sel et h : String) (jd : Option String) (hdone : req.isDone = true) :
    PanelRequest.setData now req p jd =
      (req, some ("Cannot call SetData(), path=" ++ p ++ ", PanelRequest is already done")) ∧
    PanelRequest.invalidateData now req p =
      (req, some ("Cannot call InvalidateData(), path=" ++ p ++ ", PanelRequest is already done")) ∧
    PanelRequest.sendEvent now req sel et jd =
      (req, some ("Cannot call SendEvent(), selector=" ++ sel ++ ", PanelRequest is already done")) ∧
    PanelRequest.flush req = (req, some "Cannot Flush(), PanelRequest is already done") ∧
    PanelRequest.setHtml now req h =
      (req.appendRR { ts := now, actionType := "html", html := h }, none) := by
  unfold PanelRequest.setData PanelRequest.invalidateData PanelRequest.sendEvent
    PanelRequest.flush PanelRequest.setHtml
  simp [hdone]

/-- C1 witness: the amended guard behaviour evaluated on a concrete done
request. -/
theorem c1_done_guards_witness :
    c1ReqDone.isDone = true ∧
    PanelRequest.setData 3 c1ReqDone "$.x" (some "42") =
      (c1ReqDone, some "Cannot call SetData(), path=$.x, PanelRequest is already done") ∧
    PanelRequest.flush c1ReqDone =
      (c1ReqDone, some "Cannot Flush(), PanelRequest is already done") := by
  have h := c1_done_guards_amended 3 c1ReqDone "$.x" "$.y" "click" "<p>" (some "42") rfl
  exact ⟨rfl, h.1, h.2.2.2.1⟩

/-- C2 counterexample: a root handler request that already carries an auth
atom and whose handler never set AuthImpl receives no synthetic panelauth
action from Done, though the claim requires exactly one. -/
theorem c2_authed_root_counterexample :
    c2ReqAuthed.isRootReq = true ∧
    c2ReqAuthed.authImpl = false ∧
    c2ReqAuthed.isDone = false ∧
    countPanelAuth (PanelRequest.done 0 c2ReqAuthed).2 = 0 := by
  refine ⟨?_, rfl, rfl, ?_⟩ <;> decide

/-- C2 (amended): on the first Done of a root handler request whose handler
left AuthImpl unset AND whose request carries no auth atoms, exactly one
synthetic NoAuth panelauth action (role user, atom timestamp now +
86400000 ms) is appended after the accumulated actions and shipped in the
terminal response; when AuthImpl is set or the request is not a root
handler request, Done appends nothing. -/
theorem c2_root_noauth_amended (now : ℤ) (req : PanelRequest)
    (hdone : req.isDone = false) :
    ((req.authImpl = false ∧ req.isRootReq = true ∧ req.authData = []) →
      (PanelRequest.done now req).2 =
        req.rrActions ++
          [{ ts := now, actionType := "panelauth",
             authAtomData := some
               { type := "noauth", auto := true, ts := now + 86400000, role := "user" } }] ∧
      countPanelAuth (PanelRequest.done now req).2 = countPanelAuth req.rrActions + 1) ∧
    ((req.authImpl = true ∨ req.isRootReq = false) →
      (PanelRequest.done now req).2 = req.rrActions) := by
  constructor
  · rintro ⟨ha, hr, hauth⟩
    have hsent : (PanelRequest.done now req).2 =
        req.rrActions ++
          [{ ts := now, actionType := "panelauth",
             authAtomData := some
               { type := "noauth", auto := true, ts := now + 86400000, role := "user" } }] := by
      unfold PanelRequest.done
      rw [hdone]
      simp only [Bool.false_eq_true, if_false, ha, hr, Bool.not_false, Bool.and_self, if_pos]
      unfold PanelRequest.noAuth PanelRequest.isAuthenticated
      simp only [hauth, List.length_nil]
      unfold PanelRequest.appendPanelAuthRRAction PanelRequest.appendRR
        PanelRequest.sendRequestResponse
      norm_num
    refine ⟨hsent, ?_⟩
    rw [hsent]
    unfold countPanelAuth
    rw [List.filter_append]
    simp
  · intro hcase
    unfold PanelRequest.done
    rw [hdone]
    have hcond : (!req.authImpl && req.isRootReq) = false := by
      rcases hcase with ha | hr
      · simp [ha]
      · simp [hr]
    simp only [Bool.false_eq_true, if_false, hcond]
    unfold PanelRequest.sendRequestResponse
    simp

/-- C2 witness: the amended Done behaviour on a concrete clean root request
and on a request with AuthImpl already set. -/
theorem c2_root_noauth_witness :
    c2ReqClean.isDone = false ∧
    (PanelRequest.done 5 c2ReqClean).2 =
      [{ ts := 5, actionType := "panelauth",
         authAtomData := some
           { type := "noauth", auto := true, ts := 5 + 86400000, role := "user" } }] := by
  have h := (c2_root_noauth_amended 5 c2ReqClean rfl).1 ⟨rfl, by decide, rfl⟩
  exact ⟨rfl, h.1⟩

/-- C5 counterexample: with an empty stored ConnId, sendNoAppResponse (the
dispatcher response send for unknown apps) still hands a SendResponse call
to the transport, attaching the empty ConnId as metadata, instead of
failing fast with a NotConnected error; SendResponse is not ConnectClient. -/
theorem c5_sendnoapp_unguarded_counterexample :
    c5EmptyConnClient.connId = "" ∧
    (c5EmptyConnClient.sendNoAppResponse 0 c7NoAppReq).1 = [.sendResponse] ∧
    RpcName.sendResponse ≠ RpcName.connectClient ∧
    (c5EmptyConnClient.sendNoAppResponse 0 c7NoAppReq).2.2 = "" := by
  refine ⟨rfl, rfl, by decide, rfl⟩

/-- C5 (amended): while the stored ConnId is empty, the IsConnected-guarded
operations (RemoveApp, BackendPush, ReflectZone, CallDataHandler, OpenApp,
baseWriteApp, StartStreamProtoRpc, SendResponseProtoRpc, SetBlobData) all
fail fast with NotConnected and attempt no RPC; sendNoAppResponse is the
exception: it is unguarded and attempts SendResponse regardless. -/
theorem c5_rpc_guard_amended (pc : DashCloudClient) (h : pc.connId = "")
    (resp : Option DashErr) (jsonVal? blobJson? : Option String)
    (barrRes : Except DashErr ℕ) (now : ℤ) (reqMsg : RequestMessage) :
    pc.removeAppRpc resp = ([], some notConnectedErr) ∧
    pc.backendPush resp = ([], some notConnectedErr) ∧
    pc.reflectZone resp = ([], some notConnectedErr) ∧
    pc.callDataHandler resp = ([], some notConnectedErr) ∧
    pc.openApp resp = ([], some notConnectedErr) ∧
    pc.baseWriteApp jsonVal? resp = ([], some notConnectedErr) ∧
    pc.startStreamProtoRpc resp = ([], some notConnectedErr) ∧
    pc.sendResponseProtoRpc resp = ([], some notConnectedErr) ∧
    pc.setBlobData blobJson? barrRes resp = ([], some notConnectedErr) ∧
    (pc.sendNoAppResponse now reqMsg).1 = [.sendResponse] := by
  have hc := isConnected_false_of_connId_empty pc h
  unfold DashCloudClient.removeAppRpc DashCloudClient.backendPush
    DashCloudClient.reflectZone DashCloudClient.callDataHandler
    DashCloudClient.openApp DashCloudClient.baseWriteApp
    DashCloudClient.startStreamProtoRpc DashCloudClient.sendResponseProtoRpc
    DashCloudClient.setBlobData DashCloudClient.sendNoAppResponse
  simp [hc]

/-- C5 witness: the amended guard behaviour on a concrete client with an
empty ConnId. -/
theorem c5_rpc_guard_witness :
    c5EmptyConnClient.connId = "" ∧
    c5EmptyConnClient.removeAppRpc none = ([], some notConnectedErr) ∧
    c5EmptyConnClient.sendResponseProtoRpc none = ([], some notConnectedErr) := by
  have h := c5_rpc_guard_amended c5EmptyConnClient rfl none none none (.ok 3) 0 c7NoAppReq
  exact ⟨rfl, h.1, h.2.2.2.2.2.2.2.1⟩

/-- C6: on a connected client with the BlobData record marshalled and the
reader drained, the SetBlob RPC is attempted iff the byte count is at most
BlobSizeLimitMB multiplied by one million; above the limit SetBlobData
returns the Limit error and attempts no RPC. -/
theorem c6_blob_limit (pc : DashCloudClient) (bj : String) (n : ℕ)
    (resp : Option DashErr) (hconn : pc.isConnected = true) :
    ((pc.setBlobData (some bj) (.ok n) resp).1 = [.setBlob] ↔
      (n : ℚ) ≤ pc.accInfo.blobSizeLimitMB * 1000000) ∧
    ((n : ℚ) > pc.accInfo.blobSizeLimitMB * 1000000 →
      pc.setBlobData (some bj) (.ok n) resp = ([], some ⟨.limit, "Cannot upload BLOB"⟩)) := by
  unfold DashCloudClient.setBlobData
  rw [hconn]
  by_cases hlim : (n : ℚ) > pc.accInfo.blobSizeLimitMB * 1000000
  · simp only [Bool.not_true, Bool.false_eq_true, if_false, if_pos hlim]
    constructor
    · constructor
      · intro habs
        exact absurd habs (by simp)
      · intro hle
        exact absurd hlim (not_lt.mpr hle)
    · intro _
      trivial
  · simp only [Bool.not_true, Bool.false_eq_true, if_false, if_neg hlim]
    constructor
    · constructor
      · intro _
        exact not_lt.mp hlim
      · intro _
        trivial
    · intro habs
      exact absurd habs hlim

/-- C6 witness: with a 1 MB limit, a 500000-byte payload reaches the SetBlob
RPC and a 2000000-byte payload yields the Limit error with no RPC. -/
theorem c6_blob_limit_witness :
    c6ConnectedClient.isConnected = true ∧
    (c6ConnectedClient.setBlobData (some "bj") (.ok 500000) none).1 = [.setBlob] ∧
    c6ConnectedClient.setBlobData (some "bj") (.ok 2000000) none =
      ([], some ⟨.limit, "Cannot upload BLOB"⟩) := by
  have hsmall := c6_blob_limit c6ConnectedClient "bj" 500000 none rfl
  have hbig := c6_blob_limit c6ConnectedClient "bj" 2000000 none rfl
  refine ⟨rfl, hsmall.1.mpr (by norm_num [c6ConnectedClient]), hbig.2 (by norm_num [c6ConnectedClient])⟩

/-- C7: a frame whose app name is absent from the AppMap produces exactly
one terminal SendResponse (responseDone true, err No App Found, the reqId
of the frame) and the outcome is noApp, not handlerDispatched: no user
handler runs. -/
theorem c7_no_app_found (pc : DashCloudClient) (now : ℤ) (reqMsg : RequestMessage)
    (h : pc.appNames.contains reqMsg.panelName = false) :
    pc.dispatchFrame now reqMsg =
      (effTimeoutMs reqMsg.timeoutMs,
       .noApp [{ ts := now, reqId := reqMsg.reqId, requestType := reqMsg.requestType,
                 panelName := reqMsg.panelName, feClientId := reqMsg.feClientId,
                 responseDone := true, err := "No App Found" }]) := by
  have h2 : reqMsg.panelName ∉ pc.appNames := by simpa using h
  unfold DashCloudClient.dispatchFrame DashCloudClient.sendNoAppResponse
  simp [h2]

/-- C7 witness: the no-app response on a concrete client and frame. -/
theorem c7_no_app_found_witness :
    c6ConnectedClient.appNames.contains c7NoAppReq.panelName = false ∧
    c6ConnectedClient.dispatchFrame 11 c7NoAppReq =
      (60000,
       .noApp [{ ts := 11, reqId := "r9", requestType := "handler",
                 panelName := "zzz", feClientId := "",
                 responseDone := true, err := "No App Found" }]) := by
  have h := c7_no_app_found c6ConnectedClient 11 c7NoAppReq (by decide)
  exact ⟨by decide, h⟩

/-- C8 (code bug in the source): a failing first Seek makes
BlobDataFromReadSeeker return the empty BlobData with a nil error (line 448
returns `BlobData{}, nil`), silently accepting an empty blob, against both
the claim and the doc comment of the function itself. -/
theorem c8_first_seek_error_swallowed :
    c8SeekFailReader.seek1Err = some "seek error: device offline" ∧
    blobDataFromReadSeeker "html:root" "text/html" c8SeekFailReader = ({}, none) := by
  exact ⟨rfl, rfl⟩

/-- C10: the exit error is a first-error-wins latch: a stored error is never
overwritten, and after any sequence of setExitError calls starting from a
clean client, GetExitError and WaitForShutdown return the first recorded
error. -/
theorem c10_exit_error_first_wins (pc : DashCloudClient) (e0 e : DashErr)
    (es : List DashErr) :
    (pc.exitErr = some e0 → pc.setExitError e = pc) ∧
    (pc.exitErr = none →
      ((e :: es).foldl DashCloudClient.setExitError pc).getExitError = some e ∧
      ((e :: es).foldl DashCloudClient.setExitError pc).waitForShutdown = some e) := by
  constructor
  · intro h
    unfold DashCloudClient.setExitError
    rw [h]
    simp
  · intro h
    have h1 : pc.setExitError e = { pc with exitErr := some e } := by
      unfold DashCloudClient.setExitError
      rw [h]
      simp
    have h2 : ({ pc with exitErr := some e } : DashCloudClient).exitErr = some e := rfl
    rw [List.foldl_cons, h1, foldl_setExitError_of_some _ e h2 es]
    exact ⟨rfl, rfl⟩

/-- C10 witness: first-error-wins evaluated on a concrete client and two
subsequent errors. -/
theorem c10_exit_error_witness :
    (({} : DashCloudClient).exitErr = none) ∧
    (([⟨.rpc, "first"⟩, ⟨.eof, "second"⟩, ⟨.badConnId, "third"⟩] :
        List DashErr).foldl DashCloudClient.setExitError {}).getExitError =
      some ⟨.rpc, "first"⟩ := by
  have h := (c10_exit_error_first_wins {} ⟨.rpc, "x"⟩ ⟨.rpc, "first"⟩
    [⟨.eof, "second"⟩, ⟨.badConnId, "third"⟩]).2 rfl
  exact ⟨rfl, h.1⟩

end Dashborg
